import Mathlib

/-!
# Verification of the farming-biodiversity diary store (`src/app.py`)

A shallow embedding in Lean 4 of the diary persistence layer of `app.py`:
the entry validator, the create/update/delete mutations, the in-memory
cache, the pagination of the list endpoint, backup retention and
backup recovery.  Machine timestamps (`datetime.now()`, file mtimes) are
modelled as abstract `Nat` instants supplied as explicit parameters;
calendar dates are modelled by a strict `YYYY-MM-DD` parser (the subset of
`datetime.fromisoformat` the application documents and uses); file and
cache effects are modelled by explicit state records.

String primitives of Python (`str.strip`, splitting, digit parsing) are
re-implemented over `List Char` by structural recursion so that every
definition evaluates inside the kernel.
-/

namespace FarmDiary

/-- A value appearing inside a JSON list as it reaches the Python code:
either a string, or some non-string value (number, object, ...).  The code
only ever distinguishes "is a string" from "is not a string". -/
inductive PyVal where
  | str (s : String)
  | nonStr
deriving DecidableEq

instance {ε α : Type} [DecidableEq ε] [DecidableEq α] : DecidableEq (Except ε α) := fun x y =>
  match x, y with
  | Except.ok a, Except.ok b =>
    if h : a = b then Decidable.isTrue (congrArg Except.ok h)
    else Decidable.isFalse (fun hc => h (Except.ok.inj hc))
  | Except.error a, Except.error b =>
    if h : a = b then Decidable.isTrue (congrArg Except.error h)
    else Decidable.isFalse (fun hc => h (Except.error.inj hc))
  | Except.ok _, Except.error _ => Decidable.isFalse (fun hc => Except.noConfusion hc)
  | Except.error _, Except.ok _ => Decidable.isFalse (fun hc => Except.noConfusion hc)

/-! ## String primitives -/

/-- Python `str.strip()`: remove leading and trailing whitespace. -/
def pyStrip (s : String) : String :=
  String.mk ((((s.toList.dropWhile Char.isWhitespace).reverse).dropWhile
    Char.isWhitespace).reverse)

/-- Split a character list on a separator character; mirrors Python
`str.split(sep)` for a single-character separator. -/
def splitOnChar (c : Char) : List Char → List (List Char)
  | [] => [[]]
  | x :: xs =>
    match splitOnChar c xs with
    | [] => [[]]
    | g :: gs => if x = c then [] :: g :: gs else (x :: g) :: gs

/-- Parse a non-empty all-digit character list as a natural number. -/
def digitsToNat? (l : List Char) : Option Nat :=
  if l ≠ [] ∧ l.all Char.isDigit then
    some (l.foldl (fun n c => n * 10 + (c.toNat - 48)) 0)
  else none

/-! ## Calendar dates

`datetime.fromisoformat(d).date()` on a `YYYY-MM-DD` string.  A valid date
is encoded as the natural number `y * 10000 + m * 100 + d`; this encoding
is strictly monotone in the lexicographic order on `(y, m, d)`, so the
`entry_date > today` comparison of the source is `today < encoded`. -/

def isLeapYear (y : Nat) : Bool :=
  (y % 4 == 0 && y % 100 != 0) || y % 400 == 0

def daysInMonth (y m : Nat) : Nat :=
  if m = 2 then (if isLeapYear y then 29 else 28)
  else if m = 4 ∨ m = 6 ∨ m = 9 ∨ m = 11 then 30
  else 31

def encodeDate (y m d : Nat) : Nat := y * 10000 + m * 100 + d

/-- Parse a `YYYY-MM-DD` string into an encoded date, validating the
calendar (month range, day range including leap years), or `none` when the
string is not a valid date — the case where `datetime.fromisoformat`
raises `ValueError`. -/
def parseISODate (s : String) : Option Nat :=
  match splitOnChar '-' s.toList with
  | [ys, ms, ds] =>
    match digitsToNat? ys, digitsToNat? ms, digitsToNat? ds with
    | some y, some m, some d =>
      if ys.length == 4 && ms.length == 2 && ds.length == 2
          && 1 ≤ m && m ≤ 12 && 1 ≤ d && d ≤ daysInMonth y m
      then some (encodeDate y m d) else none
    | _, _, _ => none
  | _ => none

/-! ## Entry validator (`validate_entry_data`, app.py:441-504) -/

/-- The fields of a candidate entry as the validator reads them with
`entry.get(key, default)`.  An absent key yields the default (`""` for the
string fields, `[]` for the list fields); a list field whose value is not
a list is `none`. -/
structure RawEntry where
  crop_type : String := ""
  observations : String := ""
  date : String := ""
  growth_stage : String := ""
  weather : String := ""
  location : String := ""
  user_notes : String := ""
  actions_taken : Option (List PyVal) := some []
  photos : Option (List PyVal) := some []
deriving DecidableEq

/-- Python `not isinstance(x, str) or len(x) > maxLen` — the per-element test of
the `actions_taken` / `photos` loops in `validate_entry_data`. -/
def badListElem (v : PyVal) (maxLen : Nat) : Bool :=
  match v with
  | .str s => s.length > maxLen
  | .nonStr => true

/-- The date block of `validate_entry_data` (app.py:452-461): skipped when
the date is empty; a failed parse or a date after `today` appends its
error. -/
def date_errors (date : String) (today : Nat) : List String :=
  if date ≠ "" then
    match parseISODate date with
    | none => ["Invalid date format"]
    | some d => if today < d then ["Entry date cannot be in the future"] else []
  else []

/-- The six per-field length checks of `validate_entry_data`
(app.py:463-480), in source order, on the raw (unstripped) values. -/
def length_errors (entry : RawEntry) : List String :=
  (if entry.crop_type.length > 100 then ["Crop type must be 100 characters or less"] else []) ++
  (if entry.growth_stage.length > 50 then ["Growth stage must be 50 characters or less"] else []) ++
  (if entry.observations.length > 2000 then ["Observations must be 2000 characters or less"] else []) ++
  (if entry.weather.length > 200 then ["Weather description must be 200 characters or less"] else []) ++
  (if entry.location.length > 200 then ["Location must be 200 characters or less"] else []) ++
  (if entry.user_notes.length > 1000 then ["User notes must be 1000 characters or less"] else [])

/-- The list-field block of `validate_entry_data`, instantiated once for
`actions_taken` (app.py:482-491) and once for `photos` (app.py:493-502):
not a list / too many elements / one error per bad element. -/
def list_field_errors (field : Option (List PyVal)) (maxItems elemMax : Nat)
    (notListMsg maxMsg elemMsg : String) : List String :=
  match field with
  | none => [notListMsg]
  | some items =>
    if items.length > maxItems then [maxMsg]
    else items.flatMap (fun a => if badListElem a elemMax then [elemMsg] else [])

/-- Function `validate_entry_data(entry)` (app.py:441-504).  The imperative code
appends error strings to a single list in source order; here each check
contributes its (possibly empty) segment and the result is the
concatenation, which yields the same list.  `today` is the encoded
`datetime.now().date()`. -/
def validate_entry_data (entry : RawEntry) (today : Nat) : List String :=
  (if pyStrip entry.crop_type = "" then ["Crop type is required"] else []) ++
  (if pyStrip entry.observations = "" then ["Observations are required"] else []) ++
  date_errors entry.date today ++
  length_errors entry ++
  list_field_errors entry.actions_taken 20 100 "Actions taken must be a list"
    "Maximum 20 actions allowed per entry"
    "Each action must be a string of 100 characters or less" ++
  list_field_errors entry.photos 10 500 "Photos must be a list"
    "Maximum 10 photos allowed per entry"
    "Each photo path must be a string of 500 characters or less"

/-! ## Static category tables (app.py:67-179) -/

/-- Python `str.lower()` (ASCII behaviour, which covers every key used by
the tables). -/
def pyLower (s : String) : String := String.mk (s.toList.map Char.toLower)

/-- Python `str.title()`: each alphabetic character that starts the string
or follows a non-alphabetic character is uppercased, the others are
lowercased. -/
def pyTitle (s : String) : String :=
  String.mk ((s.toList.foldl
    (fun (acc : List Char × Bool) c =>
      if c.isAlpha then ((if acc.2 then c.toUpper else c.toLower) :: acc.1, false)
      else (c :: acc.1, true))
    ([], true)).1.reverse)

structure CategoryData where
  name : String
  icon : String
  color : String
  crops : List String
deriving DecidableEq

/-- Table `CROP_CATEGORIES` (app.py:67-98), in dict insertion order. -/
def CROP_CATEGORIES : List (String × CategoryData) :=
  [("vegetables", ⟨"Vegetables", "fas fa-carrot", "#22c55e",
      ["tomato", "potato", "onion", "carrot", "lettuce", "cucumber", "pepper",
       "broccoli", "spinach", "cabbage"]⟩),
   ("fruits", ⟨"Fruits", "fas fa-apple-alt", "#f59e0b",
      ["apple", "orange", "banana", "strawberry", "grape", "peach", "pear",
       "cherry", "plum", "blueberry"]⟩),
   ("grains", ⟨"Grains", "fas fa-seedling", "#8b5cf6",
      ["rice", "wheat", "corn", "barley", "oats", "quinoa", "millet",
       "sorghum", "rye", "buckwheat"]⟩),
   ("herbs", ⟨"Herbs", "fas fa-leaf", "#10b981",
      ["basil", "mint", "cilantro", "parsley", "oregano", "thyme", "rosemary",
       "sage", "dill", "chives"]⟩),
   ("legumes", ⟨"Legumes", "fas fa-circle", "#ef4444",
      ["beans", "peas", "lentils", "chickpeas", "soybeans", "peanuts",
       "alfalfa", "clover"]⟩)]

structure CategoryInfo where
  key : String
  name : String
  icon : String
  color : String
deriving DecidableEq

/-- Function `get_crop_category` (app.py:151-167): first category whose crop list
contains the lowercased name, else the "custom" fallback. -/
def get_crop_category (crop_name : String) : CategoryInfo :=
  let crop_lower := pyLower crop_name
  match CROP_CATEGORIES.find? (fun kv => kv.2.crops.contains crop_lower) with
  | some (k, cd) => ⟨k, cd.name, cd.icon, cd.color⟩
  | none => ⟨"custom", "Custom", "fas fa-question-circle", "#6b7280"⟩

structure StageInfo where
  name : String
  icon : String
  color : String
  description : String
deriving DecidableEq

/-- Table `GROWTH_STAGES` (app.py:100-149), in dict insertion order. -/
def GROWTH_STAGES : List (String × StageInfo) :=
  [("seed", ⟨"Seed/Planting", "fas fa-circle", "#8b5cf6", "Initial planting stage"⟩),
   ("germination", ⟨"Germination", "fas fa-seedling", "#06b6d4", "Seeds sprouting and emerging"⟩),
   ("seedling", ⟨"Seedling", "fas fa-sprout", "#10b981", "Young plants with first leaves"⟩),
   ("vegetative", ⟨"Vegetative Growth", "fas fa-leaf", "#22c55e", "Active leaf and stem growth"⟩),
   ("flowering", ⟨"Flowering", "fas fa-flower", "#f59e0b", "Flower development and blooming"⟩),
   ("fruit", ⟨"Fruit Development", "fas fa-apple-alt", "#ef4444", "Fruit formation and development"⟩),
   ("harvest", ⟨"Harvest", "fas fa-cut", "#8b5cf6", "Ready for harvesting"⟩),
   ("post-harvest", ⟨"Post-Harvest", "fas fa-archive", "#6b7280", "After harvest activities"⟩)]

/-- Function `get_growth_stage_info` (app.py:169-179). -/
def get_growth_stage_info (stage_key : String) : StageInfo :=
  let stage_lower := pyLower stage_key
  match (GROWTH_STAGES.find? (fun kv => kv.1 == stage_lower)) with
  | some (_, info) => info
  | none => ⟨pyTitle stage_key, "fas fa-question-circle", "#6b7280", "Custom growth stage"⟩

/-! ## Diary entries and the persisted document (§3 of the spec) -/

/-- One persisted diary entry.  `timestamp` / `last_modified` are abstract
instants (`datetime.now().isoformat()` in the source); `last_modified` is
`none` until the first update.  `crop_category` / `growth_stage_info` are
`Option` because the dict built by the update route carries neither key. -/
structure DiaryEntry where
  id : String
  timestamp : Nat
  last_modified : Option Nat := none
  date : String
  crop_type : String
  crop_category : Option CategoryInfo := none
  growth_stage : String
  growth_stage_info : Option StageInfo := none
  observations : String
  photos : List String
  weather : String
  actions_taken : List String
  location : String
  user_notes : String
deriving DecidableEq

structure Metadata where
  total_entries : Nat
  last_updated : Nat
  version : String := "1.0"
  error : Option String := none
deriving DecidableEq

/-- The whole persisted document (`diary_data.json`). -/
structure DiaryDoc where
  entries : List DiaryEntry
  metadata : Metadata
deriving DecidableEq

/-- Invariant claimed by §3: `metadata.total_entries == len(entries)`. -/
def DocInv (doc : DiaryDoc) : Prop :=
  doc.metadata.total_entries = doc.entries.length

instance (doc : DiaryDoc) : Decidable (DocInv doc) := by
  unfold DocInv; infer_instance

/-! ## Route-level request data and sanitization
(`create_diary_entry` app.py:1567-1707, `update_diary_entry`
app.py:1709-1873) -/

/-- The JSON body of a create/update request, as the routes read it with
`data.get(key, default)`.  String fields default to `""`; the two list
fields default to `[]`, with `none` standing for a present non-list
value. -/
structure RequestData where
  date : String := ""
  crop_type : String := ""
  growth_stage : String := ""
  observations : String := ""
  weather : String := ""
  location : String := ""
  user_notes : String := ""
  actions_taken : Option (List PyVal) := some []
  photos : Option (List PyVal) := some []
deriving DecidableEq

/-- The `sanitized_data` dict both routes build: every field a string,
lists reduced to clean strings. -/
structure SanitizedData where
  date : String
  crop_type : String
  growth_stage : String
  observations : String
  weather : String
  location : String
  user_notes : String
  actions_taken : List String
  photos : List String
deriving DecidableEq

/-- The element loop shared by the `actions_taken` and `photos` blocks of
both routes: keep only elements that are strings and non-empty after
stripping; abort with an error when a kept element exceeds `maxLen`. -/
def sanitize_elems (maxLen : Nat) (errMsg : String) : List PyVal → Except String (List String)
  | [] => Except.ok []
  | PyVal.nonStr :: rest => sanitize_elems maxLen errMsg rest
  | PyVal.str s :: rest =>
    if pyStrip s = "" then sanitize_elems maxLen errMsg rest
    else if (pyStrip s).length > maxLen then Except.error errMsg
    else Except.map (fun l => pyStrip s :: l) (sanitize_elems maxLen errMsg rest)

/-- The validation/sanitization sequence shared verbatim by the create
route (app.py:1577-1676) and the update route (app.py:1733-1832).  The
only difference between the two is the date used when the request omits
`date`: the create route substitutes today's date string, the update
route the entry's existing date — both passed here as `defaultDate`.
Errors are the route's 400-response messages; an empty (stripped) date
falls back to `defaultDate`, otherwise it must parse and not lie in the
future (app.py:1590-1604 create, 1746-1760 update). -/
def sanitize_date (date : String) (today : Nat) (defaultDate : String) :
    Except String String :=
  if pyStrip date ≠ "" then
    match parseISODate (pyStrip date) with
    | none => Except.error "Invalid date format. Use YYYY-MM-DD"
    | some d =>
      if today < d then Except.error "Entry date cannot be in the future"
      else Except.ok (pyStrip date)
  else Except.ok defaultDate

/-- The full sanitization sequence of both routes, in source order:
required fields, date, the six length checks, then the two list blocks. -/
def sanitize_entry_request (data : RequestData) (today : Nat) (defaultDate : String) :
    Except String SanitizedData :=
  if pyStrip data.crop_type = "" ∨ pyStrip data.observations = "" then
    Except.error "Missing required fields"
  else
    match sanitize_date data.date today defaultDate with
    | Except.error e => Except.error e
    | Except.ok date =>
    if (pyStrip data.crop_type).length > 100 then
      Except.error "Crop type must be 100 characters or less"
    else if (pyStrip data.growth_stage).length > 50 then
      Except.error "Growth stage must be 50 characters or less"
    else if (pyStrip data.observations).length > 2000 then
      Except.error "Observations must be 2000 characters or less"
    else if (pyStrip data.weather).length > 200 then
      Except.error "Weather description must be 200 characters or less"
    else if (pyStrip data.location).length > 200 then
      Except.error "Location must be 200 characters or less"
    else if (pyStrip data.user_notes).length > 1000 then
      Except.error "User notes must be 1000 characters or less"
    else
      match data.actions_taken with
      | none => Except.error "Actions taken must be a list"
      | some actions =>
        if actions.length > 20 then Except.error "Maximum 20 actions allowed per entry"
        else
          match sanitize_elems 100 "Each action must be 100 characters or less" actions with
          | Except.error e => Except.error e
          | Except.ok sanitized_actions =>
            match data.photos with
            | none => Except.error "Photos must be a list"
            | some photos =>
              if photos.length > 10 then Except.error "Maximum 10 photos allowed per entry"
              else
                match sanitize_elems 500 "Photo path must be 500 characters or less" photos with
                | Except.error e => Except.error e
                | Except.ok sanitized_photos =>
                  Except.ok { date := date,
                              crop_type := pyStrip data.crop_type,
                              growth_stage := pyStrip data.growth_stage,
                              observations := pyStrip data.observations,
                              weather := pyStrip data.weather,
                              location := pyStrip data.location,
                              user_notes := pyStrip data.user_notes,
                              actions_taken := sanitized_actions,
                              photos := sanitized_photos }

/-! ## Create: `save_diary_entry` (app.py:337-439) -/

inductive SaveResult where
  | ok (entry_id : String)
  | fail (error msg : String)
deriving DecidableEq

/-- View the `new_entry` dict as the argument of `validate_entry_data`
(in Python the dict is passed directly; here the typed record is
converted, list fields becoming lists of strings). -/
def rawOfEntry (e : DiaryEntry) : RawEntry :=
  { crop_type := e.crop_type, observations := e.observations, date := e.date,
    growth_stage := e.growth_stage, weather := e.weather, location := e.location,
    user_notes := e.user_notes,
    actions_taken := some (e.actions_taken.map PyVal.str),
    photos := some (e.photos.map PyVal.str) }

/-- The `new_entry` dict of `save_diary_entry` (app.py:361-375): fresh id
and creation timestamp, category/stage snapshots resolved at write time,
user fields taken from `entry_data`. -/
def mk_new_entry (entry_data : SanitizedData) (entry_id : String) (now : Nat) : DiaryEntry :=
  { id := entry_id, timestamp := now, last_modified := none,
    date := entry_data.date,
    crop_type := entry_data.crop_type,
    crop_category := some (get_crop_category entry_data.crop_type),
    growth_stage := entry_data.growth_stage,
    growth_stage_info := some (get_growth_stage_info entry_data.growth_stage),
    observations := entry_data.observations,
    photos := entry_data.photos,
    weather := entry_data.weather,
    actions_taken := entry_data.actions_taken,
    location := entry_data.location,
    user_notes := entry_data.user_notes }

/-- The in-memory part of `save_diary_entry` (app.py:339-392): reject when
the loaded document carries an error marker, build `new_entry`, validate
it, append it and refresh the metadata counters.  `entry_data` is the
`sanitized_data` dict its caller `create_diary_entry` passes; `entry_id`
models the fresh `uuid.uuid4()`.  Returns the document to be persisted
together with the structured result. -/
def save_diary_entry (doc : DiaryDoc) (entry_data : SanitizedData) (entry_id : String)
    (now today : Nat) : DiaryDoc × SaveResult :=
  if doc.metadata.error.isSome then
    (doc, .fail "Data storage error" "Failed to load existing diary data")
  else if validate_entry_data (rawOfEntry (mk_new_entry entry_data entry_id now)) today ≠ [] then
    (doc, .fail "Validation failed" "Entry validation failed")
  else
    ({ entries := doc.entries ++ [mk_new_entry entry_data entry_id now],
       metadata := { doc.metadata with
                     total_entries := (doc.entries ++ [mk_new_entry entry_data entry_id now]).length,
                     last_updated := now } },
     .ok entry_id)

/-! ## Update and delete (app.py:1709-1873, 1875-1932) -/

/-- The `for i, entry in enumerate(entries): if entry.get('id') == entry_id`
search loop used by both update and delete: the first index whose entry
has the requested id, together with that entry. -/
def findEntry (entry_id : String) : List DiaryEntry → Option (Nat × DiaryEntry)
  | [] => none
  | e :: rest =>
    if e.id = entry_id then some (0, e)
    else (findEntry entry_id rest).map (fun p => (p.1 + 1, p.2))

inductive UpdResult where
  | ok (entry : DiaryEntry)
  | notFound
  | badRequest (msg : String)
deriving DecidableEq

/-- The `updated_entry` dict of `update_diary_entry` (app.py:1834-1840):
requested id, the located entry's original timestamp, a fresh
`last_modified`, and the sanitized user fields spread over them — the
dict carries no `crop_category`/`growth_stage_info` keys. -/
def mk_updated_entry (entry_id : String) (original_timestamp now : Nat)
    (sd : SanitizedData) : DiaryEntry :=
  { id := entry_id,
    timestamp := original_timestamp,
    last_modified := some now,
    date := sd.date,
    crop_type := sd.crop_type,
    crop_category := none,
    growth_stage := sd.growth_stage,
    growth_stage_info := none,
    observations := sd.observations,
    photos := sd.photos,
    weather := sd.weather,
    actions_taken := sd.actions_taken,
    location := sd.location,
    user_notes := sd.user_notes }

/-- The in-memory part of `update_diary_entry` (app.py:1709-1858): locate
the entry (404 when absent), run the shared sanitization (the default date
being the existing entry's date), then replace the record in place keeping
`id` and the original `timestamp` and stamping `last_modified`; only
`metadata.last_updated` is refreshed. -/
def update_diary_entry (doc : DiaryDoc) (entry_id : String) (data : RequestData)
    (now today : Nat) : DiaryDoc × UpdResult :=
  match findEntry entry_id doc.entries with
  | none => (doc, .notFound)
  | some (i, old) =>
    match sanitize_entry_request data today old.date with
    | Except.error e => (doc, .badRequest e)
    | Except.ok sd =>
      ({ entries := doc.entries.set i (mk_updated_entry entry_id old.timestamp now sd),
         metadata := { doc.metadata with last_updated := now } },
       .ok (mk_updated_entry entry_id old.timestamp now sd))

/-- The in-memory part of `delete_diary_entry` (app.py:1875-1912): locate
the entry (404 when absent), pop it, and refresh both metadata fields. -/
def delete_diary_entry (doc : DiaryDoc) (entry_id : String) (now : Nat) :
    DiaryDoc × Option DiaryEntry :=
  match findEntry entry_id doc.entries with
  | none => (doc, none)
  | some (i, e) =>
    ({ entries := doc.entries.eraseIdx i,
       metadata := { doc.metadata with
                     total_entries := (doc.entries.eraseIdx i).length,
                     last_updated := now } },
     some e)

/-! ## The in-memory cache and file state
(`_diary_cache` app.py:230-237, `load_diary_entries` app.py:246-328,
`invalidate_diary_cache` app.py:330-335)

The process state tracks the parsed content of `diary_data.json` (the file
is assumed present and well-formed — the `FileNotFoundError` /
`JSONDecodeError` branches of `load_diary_entries` belong to the recovery
model below), its modification time, the temporary file of the atomic
write, and the module-level `_diary_cache` dict.  Because Python passes
the cached document by reference, an operation that mutates the loaded
document in place also mutates the cached object; the functional model
makes that aliasing explicit by updating `cache.data` wherever the source
mutates the dict returned by `load_diary_entries`. -/

structure CacheState where
  data : Option DiaryDoc
  last_modified : Option Nat
  cache_time : Option Nat
deriving DecidableEq

/-- Function `invalidate_diary_cache()` sets all three fields to `None`. -/
def invalidated_cache : CacheState := ⟨none, none, none⟩

def CACHE_DURATION : Nat := 30

structure ProcState where
  file : DiaryDoc
  mtime : Nat
  temp : Option DiaryDoc
  cache : CacheState
deriving DecidableEq

/-- Function `load_diary_entries()` (app.py:248-273): return the cached document
when the cache is populated, younger than `CACHE_DURATION`, and the file's
mtime still matches; otherwise read the file and repopulate the cache. -/
def load_diary_entries (st : ProcState) (now : Nat) : DiaryDoc × ProcState :=
  match st.cache.data, st.cache.cache_time with
  | some d, some t =>
    if now - t < CACHE_DURATION ∧ st.cache.last_modified = some st.mtime then
      (d, st)
    else
      (st.file, { st with cache := ⟨some st.file, some st.mtime, some now⟩ })
  | _, _ =>
    (st.file, { st with cache := ⟨some st.file, some st.mtime, some now⟩ })

/-- Which step of the atomic write of `save_diary_entry` (app.py:402-421)
fails, if any: the `json.dump` into the temporary file, or the
`os.replace` onto the primary file. -/
inductive WriteOutcome where
  | ok
  | failTempWrite
  | failReplace
deriving DecidableEq

/-- Function `save_diary_entry` at the file level (app.py:339-439): load (possibly
from cache), run the in-memory mutation, then write the new document to
`diary_data.json.tmp` and atomically replace the primary.  On a write
failure the handler removes the temporary file and the outer `except`
clauses turn the exception into a structured failure result; the cache is
invalidated only after a fully successful save.  (The pre-write backup
copies are modelled separately with the backup manager.)  After `load`,
the cache always references the very object the mutation `append`s to,
so on a write failure the cached document is the already-appended one
while the file is untouched; on validation failure nothing has been
mutated yet. -/
def save_fs (st : ProcState) (entry_data : SanitizedData) (entry_id : String)
    (now today newMtime : Nat) (w : WriteOutcome) : ProcState × SaveResult :=
  let (doc, st1) := load_diary_entries st now
  match save_diary_entry doc entry_data entry_id now today with
  | (_, .fail e m) => (st1, .fail e m)
  | (doc', .ok i) =>
    match w with
    | .failTempWrite =>
      ({ st1 with temp := none, cache := { st1.cache with data := some doc' } },
       .fail "File system error" "Unable to save diary entry due to storage issues")
    | .failReplace =>
      ({ st1 with temp := none, cache := { st1.cache with data := some doc' } },
       .fail "File system error" "Unable to save diary entry due to storage issues")
    | .ok =>
      ({ st1 with file := doc', mtime := newMtime, temp := none,
                  cache := invalidated_cache },
       .ok i)

/-- Function `update_diary_entry` at the file level (app.py:1709-1873): load, run
the in-memory update, and on success persist with a plain (non-atomic)
rewrite.  The route mutates `entries` — the list object inside the loaded,
hence cached, document — in place, so on success the cached document *is*
the updated document; `invalidate_diary_cache` is never called here. -/
def update_fs (st : ProcState) (entry_id : String) (data : RequestData)
    (now today newMtime : Nat) : ProcState × UpdResult :=
  let (doc, st1) := load_diary_entries st now
  match update_diary_entry doc entry_id data now today with
  | (_, .notFound) => (st1, .notFound)
  | (_, .badRequest m) => (st1, .badRequest m)
  | (doc', .ok e) =>
    ({ st1 with file := doc', mtime := newMtime,
                cache := { st1.cache with data := some doc' } },
     .ok e)

/-- Function `delete_diary_entry` at the file level (app.py:1875-1932): load, pop
the entry, persist with a plain rewrite.  As with update, the pop mutates
the cached document's list in place and the cache is never invalidated. -/
def delete_fs (st : ProcState) (entry_id : String) (now newMtime : Nat) :
    ProcState × Option DiaryEntry :=
  let (doc, st1) := load_diary_entries st now
  match delete_diary_entry doc entry_id now with
  | (_, none) => (st1, none)
  | (doc', some e) =>
    ({ st1 with file := doc', mtime := newMtime,
                cache := { st1.cache with data := some doc' } },
     some e)

/-! ## The operation machine for the document invariant (C1) -/

/-- One inbound operation of the single-process, request-serialized model
of §5, with its external inputs (clock readings, the fresh uuid, the
resulting file mtime, the I/O outcome). -/
inductive DiaryOp where
  | load (now : Nat)
  | create (entry_data : SanitizedData) (entry_id : String)
      (now today newMtime : Nat) (w : WriteOutcome)
  | update (entry_id : String) (data : RequestData) (now today newMtime : Nat)
  | delete (entry_id : String) (now newMtime : Nat)

def applyOp (st : ProcState) : DiaryOp → ProcState
  | .load now => (load_diary_entries st now).2
  | .create entry_data entry_id now today newMtime w =>
    (save_fs st entry_data entry_id now today newMtime w).1
  | .update entry_id data now today newMtime =>
    (update_fs st entry_id data now today newMtime).1
  | .delete entry_id now newMtime =>
    (delete_fs st entry_id now newMtime).1

def runOps (st : ProcState) (ops : List DiaryOp) : ProcState :=
  ops.foldl applyOp st

/-- The document `load_diary_entries` synthesizes on first run
(app.py:276-283): no entries, `total_entries` 0. -/
def initial_doc (now : Nat) : DiaryDoc :=
  { entries := [], metadata := { total_entries := 0, last_updated := now } }

/-- Process start: the freshly synthesized document on disk, empty
cache (`_diary_cache` starts with all fields `None`), no temp file. -/
def initState (now mtime : Nat) : ProcState :=
  { file := initial_doc now, mtime := mtime, temp := none,
    cache := invalidated_cache }

/-! ## Pagination of the list endpoint (`get_diary_entries`,
app.py:1385-1401 and 1444-1477) -/

/-- A query-string argument as `int(...)` sees it: absent (so the
documented default string is used), present but not parseable as an
integer (`int` raises), or an integer. -/
inductive Arg where
  | absent
  | bad
  | num (n : Int)
deriving DecidableEq

/-- app.py:1386-1391: `page = max(1, int(args.get('page', '1')))`,
`per_page = min(100, max(1, int(args.get('per_page', '10'))))`, with the
whole pair reset to `(1, 10)` when either `int` raises. -/
def parse_page_args (pageArg perPageArg : Arg) : Int × Int :=
  match pageArg, perPageArg with
  | .bad, _ => (1, 10)
  | _, .bad => (1, 10)
  | p, q =>
    (max 1 (match p with | .num n => n | _ => 1),
     min 100 (max 1 (match q with | .num n => n | _ => 10)))

/-- app.py:1393-1401, legacy `limit`/`offset` support: when `limit` is a
non-empty string, `per_page` becomes the clamped `limit` and `page`
becomes `max(1, offset // per_page + 1)` (`//` is Python floor division);
a `ValueError` on `int(limit)` changes nothing, while a `ValueError` on
`int(offset)` leaves `page` alone after `per_page` was already
reassigned.  `offset` defaults to `'0'`. -/
def parse_pagination (pageArg perPageArg limitArg offsetArg : Arg) : Int × Int :=
  let pq := parse_page_args pageArg perPageArg
  match limitArg with
  | .absent => pq
  | .bad => pq
  | .num l =>
    let per_page := min 100 (max 1 l)
    match offsetArg with
    | .bad => (pq.1, per_page)
    | .absent => (max 1 (Int.fdiv 0 per_page + 1), per_page)
    | .num o => (max 1 (Int.fdiv o per_page + 1), per_page)

/-- app.py:1446: `(total_entries + per_page - 1) // per_page` when any
entry matched, else 1. -/
def total_pages (total_entries per_page : Nat) : Nat :=
  if total_entries > 0 then (total_entries + per_page - 1) / per_page else 1

/-- app.py:1449: the request is rejected iff the page number exceeds
`total_pages` and at least one entry matched the filters. -/
def page_out_of_range (page total_entries per_page : Nat) : Bool :=
  page > total_pages total_entries per_page && total_entries > 0

/-- app.py:1453-1455: `filtered_entries[start_index:end_index]` with
`start_index = (page - 1) * per_page` and `end_index = start_index +
per_page`. -/
def paginated_entries {α : Type} (l : List α) (page per_page : Nat) : List α :=
  (l.drop ((page - 1) * per_page)).take per_page

/-! ## Backup retention (`create_timestamped_backup` app.py:517-531,
`cleanup_old_backups` app.py:533-560)

A timestamped backup is modelled as its file name paired with its
modification time (`shutil.copy2` preserves the copied file's mtime). -/

/-- The comparison `cleanup_old_backups` sorts by: newest (largest mtime)
first — `backup_files.sort(key=lambda x: x[1], reverse=True)`. -/
def newestFirst (a b : String × Nat) : Prop := b.2 ≤ a.2

instance : DecidableRel newestFirst := fun a b => Nat.decLe b.2 a.2

instance : IsTotal (String × Nat) newestFirst := ⟨fun a b => Nat.le_total b.2 a.2⟩

instance : IsTrans (String × Nat) newestFirst := ⟨fun _ _ _ h₁ h₂ => Nat.le_trans h₂ h₁⟩

/-- Function `cleanup_old_backups` (app.py:533-560): sort all
`<file>.backup_*` files newest-first and delete everything beyond the
first `max_backups`; the value returned here is the set of files that
remain on disk. -/
def cleanup_old_backups (backup_files : List (String × Nat))
    (max_backups : Nat := 10) : List (String × Nat) :=
  (List.insertionSort newestFirst backup_files).take max_backups

/-- Function `create_timestamped_backup` (app.py:517-531) when the primary file
exists: copy it to a fresh timestamped name, then run the retention
cleanup over all timestamped backups including the new one. -/
def create_timestamped_backup (existing : List (String × Nat))
    (newBackup : String × Nat) : List (String × Nat) :=
  cleanup_old_backups (existing ++ [newBackup]) 10

/-! ## Backup recovery (`recover_from_backup` app.py:647-679,
`recover_from_timestamped_backup` app.py:681-736)

File contents are raw strings; `validate_json_file` (a structural JSON
check, app.py:562-645) enters the model as an abstract boolean predicate
on contents, over which the recovery theorems quantify. -/

structure TBackup where
  name : String
  mtime : Nat
  content : String
deriving DecidableEq

def newestFirstT (a b : TBackup) : Prop := b.mtime ≤ a.mtime

instance : DecidableRel newestFirstT := fun a b => Nat.decLe b.mtime a.mtime

instance : IsTotal TBackup newestFirstT := ⟨fun a b => Nat.le_total b.mtime a.mtime⟩

instance : IsTrans TBackup newestFirstT := ⟨fun _ _ _ h₁ h₂ => Nat.le_trans h₂ h₁⟩

/-- The files recovery touches: the primary `diary_data.json`, its
fixed-name `.backup`, the timestamped `.backup_*` set, the
`.corrupted_<ts>` archive slot, and the diary cache. -/
structure RecoveryState where
  primary : Option String
  fixed_backup : Option String
  timestamped : List TBackup
  corrupted_archive : Option String
  cache : CacheState
deriving DecidableEq

inductive RecResult where
  | ok
  | fail (error : String)
deriving DecidableEq

/-- Function `recover_from_backup` (app.py:647-679): require the fixed-name backup
to exist and validate it *before* touching anything; on success archive
the current (corrupt) primary under a corruption-timestamped name, then
overwrite the primary from the backup and invalidate the diary cache. -/
def recover_from_backup (validate : String → Bool) (st : RecoveryState) :
    RecoveryState × RecResult :=
  match st.fixed_backup with
  | none => (st, .fail "No backup file found")
  | some b =>
    if validate b then
      let archived := match st.primary with
        | some p => some p
        | none => st.corrupted_archive
      ({ st with corrupted_archive := archived, primary := some b,
                 cache := invalidated_cache },
       .ok)
    else (st, .fail "Backup file is also corrupted")

/-- The selection step of `recover_from_timestamped_backup`
(app.py:686-707): the named backup when a timestamp was given, otherwise
the most recently modified timestamped backup. -/
def select_timestamped_backup (st : RecoveryState)
    (backup_timestamp : Option String) : Except String TBackup :=
  match backup_timestamp with
  | some ts =>
    match st.timestamped.find? (fun f => f.name == "diary_data.json.backup_" ++ ts) with
    | some f => Except.ok f
    | none => Except.error ("Backup with timestamp " ++ ts ++ " not found")
  | none =>
    match List.insertionSort newestFirstT st.timestamped with
    | [] => Except.error "No timestamped backups found"
    | f :: _ => Except.ok f

/-- Function `recover_from_timestamped_backup` (app.py:681-736): select the named
timestamped backup (failing when it does not exist) or, with no timestamp,
the most recently modified one (failing when there is none); then validate
it before restoring, archive the corrupt primary, overwrite, invalidate
the cache — the same tail as `recover_from_backup`. -/
def recover_from_timestamped_backup (validate : String → Bool)
    (st : RecoveryState) (backup_timestamp : Option String) :
    RecoveryState × RecResult :=
  match select_timestamped_backup st backup_timestamp with
  | Except.error e => (st, .fail e)
  | Except.ok f =>
    if validate f.content then
      let archived := match st.primary with
        | some p => some p
        | none => st.corrupted_archive
      ({ st with corrupted_archive := archived, primary := some f.content,
                 cache := invalidated_cache },
       .ok)
    else (st, .fail "Selected backup file is corrupted")

/-! # Theorems -/

/-! ## C3 — the validator collects every violation -/

/-- C3: `validate_entry_data` reports all violations together.  For every
candidate entry: an empty (after stripping) `crop_type` or `observations`
contributes its required-field violation, and those violations occupy the
very front of the returned list, before any length violation; a non-empty
date that fails to parse, or parses to a day after `today`, contributes
its date violation; each per-field length limit (crop_type 100,
growth_stage 50, observations 2000, weather 200, location 200, user_notes
1000) contributes its own violation; `actions_taken`/`photos` with more
than 20/10 elements, or containing a non-string or over-long element
(100/500 chars), contribute theirs.  All memberships are in the one list
the validator returns, so independent violations are reported
simultaneously — in particular an entry missing both `crop_type` and
`observations` reports both, as the first two elements. -/
theorem validator_collects_all_violations (e : RawEntry) (today : Nat) :
    (pyStrip e.crop_type = "" →
      "Crop type is required" ∈ validate_entry_data e today ∧
      (validate_entry_data e today).head? = some "Crop type is required") ∧
    (pyStrip e.observations = "" →
      "Observations are required" ∈ validate_entry_data e today) ∧
    (pyStrip e.crop_type = "" → pyStrip e.observations = "" →
      (validate_entry_data e today).take 2 =
        ["Crop type is required", "Observations are required"]) ∧
    (pyStrip e.crop_type ≠ "" → pyStrip e.observations = "" →
      (validate_entry_data e today).head? = some "Observations are required") ∧
    (e.date ≠ "" → parseISODate e.date = none →
      "Invalid date format" ∈ validate_entry_data e today) ∧
    (∀ d, e.date ≠ "" → parseISODate e.date = some d → today < d →
      "Entry date cannot be in the future" ∈ validate_entry_data e today) ∧
    (e.crop_type.length > 100 →
      "Crop type must be 100 characters or less" ∈ validate_entry_data e today) ∧
    (e.growth_stage.length > 50 →
      "Growth stage must be 50 characters or less" ∈ validate_entry_data e today) ∧
    (e.observations.length > 2000 →
      "Observations must be 2000 characters or less" ∈ validate_entry_data e today) ∧
    (e.weather.length > 200 →
      "Weather description must be 200 characters or less" ∈ validate_entry_data e today) ∧
    (e.location.length > 200 →
      "Location must be 200 characters or less" ∈ validate_entry_data e today) ∧
    (e.user_notes.length > 1000 →
      "User notes must be 1000 characters or less" ∈ validate_entry_data e today) ∧
    (∀ acts, e.actions_taken = some acts → 20 < acts.length →
      "Maximum 20 actions allowed per entry" ∈ validate_entry_data e today) ∧
    (∀ acts a, e.actions_taken = some acts → acts.length ≤ 20 → a ∈ acts →
      badListElem a 100 = true →
      "Each action must be a string of 100 characters or less" ∈ validate_entry_data e today) ∧
    (∀ ps, e.photos = some ps → 10 < ps.length →
      "Maximum 10 photos allowed per entry" ∈ validate_entry_data e today) ∧
    (∀ ps p, e.photos = some ps → ps.length ≤ 10 → p ∈ ps →
      badListElem p 500 = true →
      "Each photo path must be a string of 500 characters or less" ∈ validate_entry_data e today) ∧
    (e.actions_taken = none →
      "Actions taken must be a list" ∈ validate_entry_data e today) ∧
    (e.photos = none →
      "Photos must be a list" ∈ validate_entry_data e today) := by
  refine ⟨?_, ?_, ?_, ?_, ?_, ?_, ?_, ?_, ?_, ?_, ?_, ?_, ?_, ?_, ?_, ?_, ?_, ?_⟩
  · intro h
    constructor
    · simp [validate_entry_data, h]
    · simp [validate_entry_data, h]
  · intro h
    simp [validate_entry_data, h]
  · intro h₁ h₂
    simp [validate_entry_data, h₁, h₂]
  · intro h₁ h₂
    simp [validate_entry_data, h₁, h₂]
  · intro h₁ h₂
    simp [validate_entry_data, date_errors, h₁, h₂]
  · intro d h₁ h₂ h₃
    simp [validate_entry_data, date_errors, h₁, h₂, h₃]
  · intro h
    simp [validate_entry_data, length_errors, h]
  · intro h
    simp [validate_entry_data, length_errors, h]
  · intro h
    simp [validate_entry_data, length_errors, h]
  · intro h
    simp [validate_entry_data, length_errors, h]
  · intro h
    simp [validate_entry_data, length_errors, h]
  · intro h
    simp [validate_entry_data, length_errors, h]
  · intro acts h₁ h₂
    simp [validate_entry_data, list_field_errors, h₁, h₂]
  · intro acts a h₁ h₂ ha hbad
    have : e.actions_taken = some acts := h₁
    simp only [validate_entry_data, list_field_errors, this, List.mem_append]
    refine Or.inl (Or.inr ?_)
    rw [if_neg (by omega)]
    exact List.mem_flatMap.mpr ⟨a, ha, by simp [hbad]⟩
  · intro ps h₁ h₂
    simp [validate_entry_data, list_field_errors, h₁, h₂]
  · intro ps p h₁ h₂ hp hbad
    simp only [validate_entry_data, list_field_errors, h₁, List.mem_append]
    refine Or.inr ?_
    rw [if_neg (by omega)]
    exact List.mem_flatMap.mpr ⟨p, hp, by simp [hbad]⟩
  · intro h
    simp [validate_entry_data, list_field_errors, h]
  · intro h
    simp [validate_entry_data, list_field_errors, h]

/-- Witness for C3 at concrete entries exercising each hypothesis
group. -/
theorem validator_collects_all_violations_witness :
    ("Crop type is required" ∈ validate_entry_data { crop_type := " ", observations := "" } 0) ∧
    ((validate_entry_data { crop_type := " ", observations := "" } 0).take 2 =
      ["Crop type is required", "Observations are required"]) ∧
    ("Entry date cannot be in the future" ∈
      validate_entry_data { crop_type := "x", observations := "y", date := "2027-01-01" }
        (encodeDate 2026 10 12)) ∧
    ("Invalid date format" ∈
      validate_entry_data { crop_type := "x", observations := "y", date := "nope" } 0) ∧
    ("Observations must be 2000 characters or less" ∈
      validate_entry_data
        { crop_type := "x", observations := String.mk (List.replicate 2001 'a') } 0) ∧
    ("Maximum 20 actions allowed per entry" ∈
      validate_entry_data
        { crop_type := "x", observations := "y",
          actions_taken := some (List.replicate 21 PyVal.nonStr) } 0) ∧
    ("Each photo path must be a string of 500 characters or less" ∈
      validate_entry_data
        { crop_type := "x", observations := "y", photos := some [PyVal.nonStr] } 0) :=
  ⟨((validator_collects_all_violations _ 0).1 (by decide)).1,
   (validator_collects_all_violations _ 0).2.2.1 (by decide) (by decide),
   (validator_collects_all_violations _ (encodeDate 2026 10 12)).2.2.2.2.2.1
     (encodeDate 2027 1 1) (by decide) (by decide) (by decide),
   (validator_collects_all_violations _ 0).2.2.2.2.1 (by decide) (by decide),
   (validator_collects_all_violations _ 0).2.2.2.2.2.2.2.2.1
     (by
       show (String.mk (List.replicate 2001 'a')).length > 2000
       have h : (String.mk (List.replicate 2001 'a')).length = 2001 := by
         rw [show (String.mk (List.replicate 2001 'a')).length =
               (List.replicate 2001 'a').length from rfl, List.length_replicate]
       omega),
   (validator_collects_all_violations _ 0).2.2.2.2.2.2.2.2.2.2.2.2.1
     (List.replicate 21 PyVal.nonStr) (by decide) (by decide),
   (validator_collects_all_violations _ 0).2.2.2.2.2.2.2.2.2.2.2.2.2.2.2.1
     [PyVal.nonStr] PyVal.nonStr (by decide) (by decide) (by decide) (by decide)⟩

/-! ## Inversion lemmas for the three mutations -/

theorem save_ok_inversion {doc : DiaryDoc} {ed : SanitizedData} {entry_id : String}
    {now today : Nat} {doc' : DiaryDoc} {i : String}
    (h : save_diary_entry doc ed entry_id now today = (doc', SaveResult.ok i)) :
    i = entry_id ∧
    doc' = { entries := doc.entries ++ [mk_new_entry ed entry_id now],
             metadata := { doc.metadata with
                           total_entries :=
                             (doc.entries ++ [mk_new_entry ed entry_id now]).length,
                           last_updated := now } } := by
  unfold save_diary_entry at h
  split at h
  · simp at h
  · split at h
    · simp at h
    · obtain ⟨h₁, h₂⟩ := Prod.mk.injEq _ _ _ _ ▸ h
      exact ⟨(SaveResult.ok.injEq _ _ ▸ h₂).symm, h₁.symm⟩

theorem update_ok_inversion {doc : DiaryDoc} {entry_id : String} {data : RequestData}
    {now today : Nat} {doc' : DiaryDoc} {e' : DiaryEntry}
    (h : update_diary_entry doc entry_id data now today = (doc', UpdResult.ok e')) :
    ∃ i old sd, findEntry entry_id doc.entries = some (i, old) ∧
      sanitize_entry_request data today old.date = Except.ok sd ∧
      e' = mk_updated_entry entry_id old.timestamp now sd ∧
      doc' = { entries := doc.entries.set i e',
               metadata := { doc.metadata with last_updated := now } } := by
  unfold update_diary_entry at h
  split at h
  · simp at h
  · rename_i i old hfind
    split at h
    · simp at h
    · rename_i sd hsan
      obtain ⟨h₁, h₂⟩ := Prod.mk.injEq _ _ _ _ ▸ h
      have he : e' = mk_updated_entry entry_id old.timestamp now sd :=
        (UpdResult.ok.injEq _ _ ▸ h₂).symm
      exact ⟨i, old, sd, hfind, hsan, he, by rw [← h₁, he]⟩

theorem delete_some_inversion {doc : DiaryDoc} {entry_id : String} {now : Nat}
    {doc' : DiaryDoc} {e : DiaryEntry}
    (h : delete_diary_entry doc entry_id now = (doc', some e)) :
    ∃ i, findEntry entry_id doc.entries = some (i, e) ∧
      doc' = { entries := doc.entries.eraseIdx i,
               metadata := { doc.metadata with
                             total_entries := (doc.entries.eraseIdx i).length,
                             last_updated := now } } := by
  unfold delete_diary_entry at h
  split at h
  · simp at h
  · rename_i i e₀ hfind
    obtain ⟨h₁, h₂⟩ := Prod.mk.injEq _ _ _ _ ▸ h
    have he : e₀ = e := Option.some.injEq _ _ ▸ h₂
    exact ⟨i, he ▸ hfind, h₁.symm⟩

/-! ## C1 — the `total_entries` invariant -/

/-- Strengthened induction invariant: the persisted document and any
cached document satisfy `DocInv`. -/
def StInv (st : ProcState) : Prop :=
  DocInv st.file ∧ ∀ d, st.cache.data = some d → DocInv d

theorem load_inv {st : ProcState} {now : Nat} (h : StInv st) :
    DocInv (load_diary_entries st now).1 ∧ StInv (load_diary_entries st now).2 := by
  obtain ⟨hf, hc⟩ := h
  unfold load_diary_entries
  rcases hd : st.cache.data with _ | d <;> rcases ht : st.cache.cache_time with _ | t <;>
    simp only
  · exact ⟨hf, hf, by intro d hd'; simp at hd'; rw [← hd']; exact hf⟩
  · exact ⟨hf, hf, by intro d hd'; simp at hd'; rw [← hd']; exact hf⟩
  · exact ⟨hf, hf, by intro d hd'; simp at hd'; rw [← hd']; exact hf⟩
  · split
    · exact ⟨hc d hd, hf, hc⟩
    · exact ⟨hf, hf, by intro d' hd'; simp at hd'; rw [← hd']; exact hf⟩

theorem save_fs_inv {st : ProcState} {ed : SanitizedData} {entry_id : String}
    {now today newMtime : Nat} {w : WriteOutcome} (h : StInv st) :
    StInv (save_fs st ed entry_id now today newMtime w).1 := by
  have hli := @load_inv st now h
  unfold save_fs
  rcases hld : load_diary_entries st now with ⟨doc, st1⟩
  rw [hld] at hli
  obtain ⟨hdoc, hst1⟩ := hli
  dsimp only
  rcases hs : save_diary_entry doc ed entry_id now today with ⟨doc2, r⟩
  cases r with
  | fail e m => exact hst1
  | ok i =>
    obtain ⟨-, hdoc2⟩ := save_ok_inversion hs
    have hinv2 : DocInv doc2 := by rw [hdoc2]; rfl
    cases w with
    | failTempWrite =>
      refine ⟨hst1.1, ?_⟩
      intro d hd
      simp only [Option.some.injEq] at hd
      rw [← hd]; exact hinv2
    | failReplace =>
      refine ⟨hst1.1, ?_⟩
      intro d hd
      simp only [Option.some.injEq] at hd
      rw [← hd]; exact hinv2
    | ok =>
      refine ⟨hinv2, ?_⟩
      intro d hd
      simp [invalidated_cache] at hd

theorem update_fs_inv {st : ProcState} {entry_id : String} {data : RequestData}
    {now today newMtime : Nat} (h : StInv st) :
    StInv (update_fs st entry_id data now today newMtime).1 := by
  have hli := @load_inv st now h
  unfold update_fs
  rcases hld : load_diary_entries st now with ⟨doc, st1⟩
  rw [hld] at hli
  obtain ⟨hdoc, hst1⟩ := hli
  dsimp only
  rcases hu : update_diary_entry doc entry_id data now today with ⟨doc2, r⟩
  cases r with
  | notFound => exact hst1
  | badRequest m => exact hst1
  | ok e' =>
    obtain ⟨i, old, sd, -, -, -, hdoc2⟩ := update_ok_inversion hu
    have hinv2 : DocInv doc2 := by
      rw [hdoc2]
      show doc.metadata.total_entries = (doc.entries.set i e').length
      rw [List.length_set]
      exact hdoc
    refine ⟨hinv2, ?_⟩
    intro d hd
    simp only [Option.some.injEq] at hd
    rw [← hd]; exact hinv2

theorem delete_fs_inv {st : ProcState} {entry_id : String} {now newMtime : Nat}
    (h : StInv st) : StInv (delete_fs st entry_id now newMtime).1 := by
  have hli := @load_inv st now h
  unfold delete_fs
  rcases hld : load_diary_entries st now with ⟨doc, st1⟩
  rw [hld] at hli
  obtain ⟨hdoc, hst1⟩ := hli
  dsimp only
  rcases hdel : delete_diary_entry doc entry_id now with ⟨doc2, r⟩
  cases r with
  | none => exact hst1
  | some e =>
    obtain ⟨i, -, hdoc2⟩ := delete_some_inversion hdel
    have hinv2 : DocInv doc2 := by rw [hdoc2]; rfl
    refine ⟨hinv2, ?_⟩
    intro d hd
    simp only [Option.some.injEq] at hd
    rw [← hd]; exact hinv2

theorem applyOp_inv {st : ProcState} (op : DiaryOp) (h : StInv st) :
    StInv (applyOp st op) := by
  cases op with
  | load now => exact (load_inv h).2
  | create ed id now today newMtime w => exact save_fs_inv h
  | update id data now today newMtime => exact update_fs_inv h
  | delete id now newMtime => exact delete_fs_inv h

theorem runOps_inv {st : ProcState} (ops : List DiaryOp) (h : StInv st) :
    StInv (runOps st ops) := by
  induction ops generalizing st with
  | nil => exact h
  | cons op rest ih => exact ih (applyOp_inv op h)

/-- C1: in every state the process can reach from its start — in
particular right after every successful create (`save_diary_entry`),
update (`update_diary_entry`) and delete (`delete_diary_entry`) — the
persisted document satisfies `metadata.total_entries == len(entries)`.
Create and delete recompute the counter unconditionally; update leaves
both the counter and the number of entries unchanged, so the invariant
established at creation of the store is maintained by every operation
sequence. -/
theorem total_entries_invariant (now₀ mtime₀ : Nat) (ops : List DiaryOp) :
    DocInv (runOps (initState now₀ mtime₀) ops).file := by
  have h0 : StInv (initState now₀ mtime₀) := by
    refine ⟨rfl, ?_⟩
    intro d hd
    simp [initState, invalidated_cache] at hd
  exact (runOps_inv ops h0).1

/-! ## C8 — update preserves id and timestamp, refreshes last_modified -/

theorem findEntry_some_mem {entry_id : String} {l : List DiaryEntry} {i : Nat}
    {e : DiaryEntry} (h : findEntry entry_id l = some (i, e)) :
    e ∈ l ∧ e.id = entry_id := by
  induction l generalizing i with
  | nil => simp [findEntry] at h
  | cons x xs ih =>
    unfold findEntry at h
    split at h
    · rename_i hx
      obtain ⟨-, he⟩ := Prod.mk.injEq _ _ _ _ ▸ (Option.some.injEq _ _ ▸ h)
      exact ⟨by rw [← he]; exact List.mem_cons_self x xs, by rw [← he]; exact hx⟩
    · rcases hf : findEntry entry_id xs with _ | ⟨i', e'⟩
      · rw [hf] at h; simp at h
      · rw [hf] at h
        simp only [Option.map_some', Option.some.injEq, Prod.mk.injEq] at h
        obtain ⟨-, he⟩ := h
        subst he
        have := ih (i := i') hf
        exact ⟨List.mem_cons_of_mem x this.1, this.2⟩

/-- Projections of a successful shared sanitization: every string field of
the result is the stripped request field; the list fields are the outputs
of the element loops on the request's lists; the date falls back to
`defaultDate` exactly when the request's stripped date is empty. -/
theorem sanitize_ok_fields {data : RequestData} {today : Nat} {defaultDate : String}
    {sd : SanitizedData} (h : sanitize_entry_request data today defaultDate = Except.ok sd) :
    sd.crop_type = pyStrip data.crop_type ∧
    sd.growth_stage = pyStrip data.growth_stage ∧
    sd.observations = pyStrip data.observations ∧
    sd.weather = pyStrip data.weather ∧
    sd.location = pyStrip data.location ∧
    sd.user_notes = pyStrip data.user_notes ∧
    (∃ acts, data.actions_taken = some acts ∧
      sanitize_elems 100 "Each action must be 100 characters or less" acts =
        Except.ok sd.actions_taken) ∧
    (∃ ps, data.photos = some ps ∧
      sanitize_elems 500 "Photo path must be 500 characters or less" ps =
        Except.ok sd.photos) ∧
    (pyStrip data.date ≠ "" → sd.date = pyStrip data.date) ∧
    (pyStrip data.date = "" → sd.date = defaultDate) := by
  unfold sanitize_entry_request at h
  split at h
  · simp at h
  · rcases hd : sanitize_date data.date today defaultDate with e | date
    · rw [hd] at h; dsimp only at h; simp at h
    · rw [hd] at h
      dsimp only at h
      split at h; · simp at h
      split at h; · simp at h
      split at h; · simp at h
      split at h; · simp at h
      split at h; · simp at h
      split at h; · simp at h
      rcases hacts : data.actions_taken with _ | acts
      · rw [hacts] at h; simp at h
      · rw [hacts] at h
        dsimp only at h
        split at h; · simp at h
        rcases hsa : sanitize_elems 100 "Each action must be 100 characters or less" acts
          with e | sacts
        · rw [hsa] at h; simp at h
        · rw [hsa] at h
          dsimp only at h
          rcases hps : data.photos with _ | ps
          · rw [hps] at h; simp at h
          · rw [hps] at h
            dsimp only at h
            split at h; · simp at h
            rcases hsp : sanitize_elems 500 "Photo path must be 500 characters or less" ps
              with e | sps
            · rw [hsp] at h; simp at h
            · rw [hsp] at h
              dsimp only at h
              have hsd := (Except.ok.injEq _ _ ▸ h).symm
              subst hsd
              have hdate : (pyStrip data.date ≠ "" → date = pyStrip data.date) ∧
                  (pyStrip data.date = "" → date = defaultDate) := by
                unfold sanitize_date at hd
                split at hd
                · rename_i hne
                  rcases hp : parseISODate (pyStrip data.date) with _ | dd <;>
                    rw [hp] at hd <;> dsimp only at hd
                  · simp at hd
                  · split at hd
                    · simp at hd
                    · simp only [Except.ok.injEq] at hd
                      exact ⟨fun _ => hd.symm, fun he => absurd he hne⟩
                · rename_i hne
                  simp only [Except.ok.injEq] at hd
                  exact ⟨fun hne2 => absurd (not_not.mp hne) hne2, fun _ => hd.symm⟩
              exact ⟨rfl, rfl, rfl, rfl, rfl, rfl,
                ⟨acts, rfl, by rw [hsa]⟩, ⟨ps, rfl, by rw [hsp]⟩,
                hdate.1, hdate.2⟩

/-- C8: whenever `update_diary_entry` succeeds, the located entry has the
requested id, and the stored record keeps that id and the original
creation `timestamp` unchanged while all user-supplied fields are replaced
by the sanitized request fields; `last_modified` is set to the update
instant `now`, which is ≥ the original timestamp whenever the clock has
not run backwards since the entry was created (`hclock`). -/
theorem update_preserves_id_and_timestamp (doc : DiaryDoc) (entry_id : String)
    (data : RequestData) (now today : Nat) (doc' : DiaryDoc) (e' : DiaryEntry)
    (h : update_diary_entry doc entry_id data now today = (doc', UpdResult.ok e'))
    (hclock : ∀ e ∈ doc.entries, e.timestamp ≤ now) :
    ∃ i old, findEntry entry_id doc.entries = some (i, old) ∧
      old ∈ doc.entries ∧
      e'.id = old.id ∧
      e'.timestamp = old.timestamp ∧
      e'.last_modified = some now ∧
      old.timestamp ≤ now ∧
      e'.crop_type = pyStrip data.crop_type ∧
      e'.growth_stage = pyStrip data.growth_stage ∧
      e'.observations = pyStrip data.observations ∧
      e'.weather = pyStrip data.weather ∧
      e'.location = pyStrip data.location ∧
      e'.user_notes = pyStrip data.user_notes ∧
      doc'.entries = doc.entries.set i e' := by
  obtain ⟨i, old, sd, hfind, hsan, he', hdoc'⟩ := update_ok_inversion h
  obtain ⟨hmem, hid⟩ := findEntry_some_mem hfind
  obtain ⟨hc, hg, ho, hw, hl, hu, -, -, -, -⟩ := sanitize_ok_fields hsan
  subst he'
  exact ⟨i, old, hfind, hmem, by simp [mk_updated_entry, hid],
    rfl, rfl, hclock old hmem,
    by simpa [mk_updated_entry] using hc,
    by simpa [mk_updated_entry] using hg,
    by simpa [mk_updated_entry] using ho,
    by simpa [mk_updated_entry] using hw,
    by simpa [mk_updated_entry] using hl,
    by simpa [mk_updated_entry] using hu,
    by rw [hdoc']⟩

/-- A one-entry store used to exercise the update path concretely. -/
def sampleEntry : DiaryEntry :=
  { id := "e1", timestamp := 1, last_modified := none, date := "2026-01-02",
    crop_type := "tomato", crop_category := none, growth_stage := "seed",
    growth_stage_info := none, observations := "obs", photos := [],
    weather := "", actions_taken := [], location := "", user_notes := "" }

def sampleDoc : DiaryDoc :=
  { entries := [sampleEntry], metadata := { total_entries := 1, last_updated := 1 } }

/-- An update request replacing every field; one action needs stripping,
one element is not a string. -/
def sampleUpdateData : RequestData :=
  { crop_type := "corn", observations := "tall",
    actions_taken := some [PyVal.str " water ", PyVal.nonStr], photos := some [] }

def sampleUpdatedSd : SanitizedData :=
  { date := "2026-01-02", crop_type := "corn", growth_stage := "",
    observations := "tall", weather := "", location := "", user_notes := "",
    actions_taken := ["water"], photos := [] }

def sampleUpdatedEntry : DiaryEntry := mk_updated_entry "e1" 1 5 sampleUpdatedSd

def sampleUpdatedDoc : DiaryDoc :=
  { entries := [sampleUpdatedEntry],
    metadata := { total_entries := 1, last_updated := 5 } }

/-- Witness for C8: a concrete successful update. -/
theorem update_preserves_id_and_timestamp_witness :
    ∃ i old, findEntry "e1" sampleDoc.entries = some (i, old) ∧
      old ∈ sampleDoc.entries ∧
      sampleUpdatedEntry.id = old.id ∧
      sampleUpdatedEntry.timestamp = old.timestamp ∧
      sampleUpdatedEntry.last_modified = some 5 ∧
      old.timestamp ≤ 5 ∧
      sampleUpdatedEntry.crop_type = pyStrip sampleUpdateData.crop_type ∧
      sampleUpdatedEntry.growth_stage = pyStrip sampleUpdateData.growth_stage ∧
      sampleUpdatedEntry.observations = pyStrip sampleUpdateData.observations ∧
      sampleUpdatedEntry.weather = pyStrip sampleUpdateData.weather ∧
      sampleUpdatedEntry.location = pyStrip sampleUpdateData.location ∧
      sampleUpdatedEntry.user_notes = pyStrip sampleUpdateData.user_notes ∧
      sampleUpdatedDoc.entries = sampleDoc.entries.set i sampleUpdatedEntry :=
  update_preserves_id_and_timestamp sampleDoc "e1" sampleUpdateData 5
    (encodeDate 2026 10 12) sampleUpdatedDoc sampleUpdatedEntry
    (by decide) (by decide)

/-! ## C10 — non-string and blank list elements are silently dropped -/

/-- Which submitted list element survives sanitization, and as what: a
string that is non-empty after stripping survives as its stripped self;
everything else is dropped. -/
def keepElem : PyVal → Option String
  | .str s => if pyStrip s = "" then none else some (pyStrip s)
  | .nonStr => none

theorem sanitize_elems_ok_eq {maxLen : Nat} {msg : String} {l : List PyVal}
    {out : List String} (h : sanitize_elems maxLen msg l = Except.ok out) :
    out = l.filterMap keepElem := by
  induction l generalizing out with
  | nil =>
    unfold sanitize_elems at h
    simp only [Except.ok.injEq] at h
    simp [← h]
  | cons v rest ih =>
    cases v with
    | nonStr =>
      unfold sanitize_elems at h
      simp only [List.filterMap_cons, keepElem]
      exact ih h
    | str s =>
      unfold sanitize_elems at h
      split at h
      · rename_i hs
        simp only [List.filterMap_cons, keepElem, hs, if_pos]
        exact ih h
      · split at h
        · simp at h
        · rename_i hs hlen
          rcases hr : sanitize_elems maxLen msg rest with e | out' <;> rw [hr] at h
          · simp [Except.map] at h
          · simp only [Except.map, Except.ok.injEq] at h
            have hk : keepElem (PyVal.str s) = some (pyStrip s) := by
              simp [keepElem, hs]
            rw [← h, List.filterMap_cons, hk, ih hr]

/-- C10: in both the create and the update route, elements of
`actions_taken` and `photos` that are not strings, or are empty after
stripping, are silently dropped rather than rejected: whenever the shared
sanitization succeeds, the stored lists are exactly the stripped non-empty
string elements of the submitted lists, in input order (hence never longer
than the input); the create path then persists those lists unchanged in
the appended entry, and the update path in the replaced entry. -/
theorem list_elements_silently_dropped :
    (∀ (maxLen : Nat) (msg : String) (l : List PyVal) (out : List String),
       sanitize_elems maxLen msg l = Except.ok out →
       out = l.filterMap keepElem ∧ out.length ≤ l.length) ∧
    (∀ (data : RequestData) (today : Nat) (defaultDate : String) (sd : SanitizedData),
       sanitize_entry_request data today defaultDate = Except.ok sd →
       ∃ acts ps, data.actions_taken = some acts ∧ data.photos = some ps ∧
         sd.actions_taken = acts.filterMap keepElem ∧
         sd.photos = ps.filterMap keepElem ∧
         sd.actions_taken.length ≤ acts.length ∧ sd.photos.length ≤ ps.length) ∧
    (∀ (doc : DiaryDoc) (ed : SanitizedData) (entry_id : String) (now today : Nat)
       (doc' : DiaryDoc) (i : String),
       save_diary_entry doc ed entry_id now today = (doc', SaveResult.ok i) →
       ∃ newE, doc'.entries = doc.entries ++ [newE] ∧
         newE.actions_taken = ed.actions_taken ∧ newE.photos = ed.photos) ∧
    (∀ (doc : DiaryDoc) (entry_id : String) (data : RequestData) (now today : Nat)
       (doc' : DiaryDoc) (e' : DiaryEntry),
       update_diary_entry doc entry_id data now today = (doc', UpdResult.ok e') →
       ∃ acts ps, data.actions_taken = some acts ∧ data.photos = some ps ∧
         e'.actions_taken = acts.filterMap keepElem ∧
         e'.photos = ps.filterMap keepElem) := by
  have hmain : ∀ (maxLen : Nat) (msg : String) (l : List PyVal) (out : List String),
      sanitize_elems maxLen msg l = Except.ok out →
      out = l.filterMap keepElem ∧ out.length ≤ l.length := by
    intro maxLen msg l out h
    have he := sanitize_elems_ok_eq h
    exact ⟨he, by rw [he]; exact List.length_filterMap_le _ _⟩
  refine ⟨hmain, ?_, ?_, ?_⟩
  · intro data today defaultDate sd h
    obtain ⟨-, -, -, -, -, -, ⟨acts, hacts, hsa⟩, ⟨ps, hps, hsp⟩, -, -⟩ :=
      sanitize_ok_fields h
    obtain ⟨ha, hla⟩ := hmain _ _ _ _ hsa
    obtain ⟨hp, hlp⟩ := hmain _ _ _ _ hsp
    exact ⟨acts, ps, hacts, hps, ha, hp, ha ▸ hla, hp ▸ hlp⟩
  · intro doc ed entry_id now today doc' i h
    obtain ⟨-, hdoc'⟩ := save_ok_inversion h
    exact ⟨mk_new_entry ed entry_id now, by rw [hdoc'], rfl, rfl⟩
  · intro doc entry_id data now today doc' e' h
    obtain ⟨i, old, sd, -, hsan, he', -⟩ := update_ok_inversion h
    obtain ⟨-, -, -, -, -, -, ⟨acts, hacts, hsa⟩, ⟨ps, hps, hsp⟩, -, -⟩ :=
      sanitize_ok_fields hsan
    obtain ⟨ha, -⟩ := hmain _ _ _ _ hsa
    obtain ⟨hp, -⟩ := hmain _ _ _ _ hsp
    refine ⟨acts, ps, hacts, hps, ?_, ?_⟩
    · rw [he']; exact ha
    · rw [he']; exact hp

/-- Witness for C10: a concrete list whose blank and non-string elements
are dropped, threaded through the shared sanitization. -/
theorem list_elements_silently_dropped_witness :
    (["water"] = [PyVal.str " water ", PyVal.nonStr, PyVal.str "  "].filterMap keepElem ∧
      (["water"] : List String).length ≤
        [PyVal.str " water ", PyVal.nonStr, PyVal.str "  "].length) ∧
    (∃ acts ps, sampleUpdateData.actions_taken = some acts ∧
      sampleUpdateData.photos = some ps ∧
      sampleUpdatedSd.actions_taken = acts.filterMap keepElem ∧
      sampleUpdatedSd.photos = ps.filterMap keepElem ∧
      sampleUpdatedSd.actions_taken.length ≤ acts.length ∧
      sampleUpdatedSd.photos.length ≤ ps.length) :=
  ⟨list_elements_silently_dropped.1 100 "Each action must be 100 characters or less"
      [PyVal.str " water ", PyVal.nonStr, PyVal.str "  "] ["water"] (by decide),
   list_elements_silently_dropped.2.1 sampleUpdateData 0 "2026-01-02" sampleUpdatedSd
      (by decide)⟩

/-! ## C4 — the create path writes atomically and cleans up on failure -/

theorem load_preserves_file (st : ProcState) (now : Nat) :
    (load_diary_entries st now).2.file = st.file ∧
    (load_diary_entries st now).2.mtime = st.mtime ∧
    (load_diary_entries st now).2.temp = st.temp := by
  unfold load_diary_entries
  rcases st.cache.data with _ | d <;> rcases st.cache.cache_time with _ | t <;>
    simp only <;> (try split) <;> simp

/-- C4: on the create path the new document is first written to the
temporary file and only an atomic replace installs it as the primary.
Consequently (i) the primary document changes only when the operation
reports success; (ii) when the document was built and validated but the
write fails — at the temp-file write or at the replace — the temporary
artifact is removed, the caller receives a structured failure result (the
exception is swallowed by the `except OSError` handler), and the primary
file and its mtime are exactly their pre-mutation values; (iii) when the
write succeeds the primary is exactly the new document and no temp file
remains. -/
theorem atomic_create_write :
    (∀ (st : ProcState) (ed : SanitizedData) (entry_id : String)
       (now today newMtime : Nat) (w : WriteOutcome) (st' : ProcState) (r : SaveResult),
       save_fs st ed entry_id now today newMtime w = (st', r) →
       st'.file = st.file ∨ ∃ i, r = SaveResult.ok i) ∧
    (∀ (st : ProcState) (ed : SanitizedData) (entry_id : String)
       (now today newMtime : Nat) (w : WriteOutcome) (st' : ProcState) (r : SaveResult)
       (doc' : DiaryDoc) (i : String),
       save_fs st ed entry_id now today newMtime w = (st', r) →
       save_diary_entry (load_diary_entries st now).1 ed entry_id now today =
         (doc', SaveResult.ok i) →
       w ≠ WriteOutcome.ok →
       st'.temp = none ∧ st'.file = st.file ∧ st'.mtime = st.mtime ∧
         r = SaveResult.fail "File system error"
               "Unable to save diary entry due to storage issues") ∧
    (∀ (st : ProcState) (ed : SanitizedData) (entry_id : String)
       (now today newMtime : Nat) (st' : ProcState) (r : SaveResult)
       (doc' : DiaryDoc) (i : String),
       save_fs st ed entry_id now today newMtime WriteOutcome.ok = (st', r) →
       save_diary_entry (load_diary_entries st now).1 ed entry_id now today =
         (doc', SaveResult.ok i) →
       st'.file = doc' ∧ st'.temp = none ∧ r = SaveResult.ok i) := by
  refine ⟨?_, ?_, ?_⟩
  · intro st ed entry_id now today newMtime w st' r h
    have hpf := load_preserves_file st now
    unfold save_fs at h
    rcases hld : load_diary_entries st now with ⟨doc, st1⟩
    rw [hld] at h hpf
    dsimp only at h
    rcases hs : save_diary_entry doc ed entry_id now today with ⟨doc2, r2⟩
    rw [hs] at h
    cases r2 with
    | fail e m =>
      obtain ⟨h1, -⟩ := Prod.mk.injEq _ _ _ _ ▸ h
      left; rw [← h1]; exact hpf.1
    | ok i =>
      cases w with
      | failTempWrite =>
        obtain ⟨h1, -⟩ := Prod.mk.injEq _ _ _ _ ▸ h
        left; rw [← h1]; exact hpf.1
      | failReplace =>
        obtain ⟨h1, -⟩ := Prod.mk.injEq _ _ _ _ ▸ h
        left; rw [← h1]; exact hpf.1
      | ok =>
        obtain ⟨-, h2⟩ := Prod.mk.injEq _ _ _ _ ▸ h
        right; exact ⟨i, h2.symm⟩
  · intro st ed entry_id now today newMtime w st' r doc' i h h2 hw
    have hpf := load_preserves_file st now
    unfold save_fs at h
    rcases hld : load_diary_entries st now with ⟨doc, st1⟩
    rw [hld] at h h2 hpf
    dsimp only at h h2
    rw [h2] at h
    cases w with
    | ok => exact absurd rfl hw
    | failTempWrite =>
      obtain ⟨h1, hr⟩ := Prod.mk.injEq _ _ _ _ ▸ h
      refine ⟨by rw [← h1], by rw [← h1]; exact hpf.1, by rw [← h1]; exact hpf.2.1,
        hr.symm⟩
    | failReplace =>
      obtain ⟨h1, hr⟩ := Prod.mk.injEq _ _ _ _ ▸ h
      refine ⟨by rw [← h1], by rw [← h1]; exact hpf.1, by rw [← h1]; exact hpf.2.1,
        hr.symm⟩
  · intro st ed entry_id now today newMtime st' r doc' i h h2
    unfold save_fs at h
    rcases hld : load_diary_entries st now with ⟨doc, st1⟩
    rw [hld] at h h2
    dsimp only at h h2
    rw [h2] at h
    obtain ⟨h1, hr⟩ := Prod.mk.injEq _ _ _ _ ▸ h
    exact ⟨by rw [← h1], by rw [← h1], hr.symm⟩

def samplePreState : ProcState :=
  { file := sampleDoc, mtime := 3, temp := none, cache := invalidated_cache }

def sampleSavedDoc : DiaryDoc :=
  { entries := [sampleEntry, mk_new_entry sampleUpdatedSd "id2" 5],
    metadata := { total_entries := 2, last_updated := 5 } }

/-- The state after a create whose temp-file write failed: cache holds the
in-place-appended document, the primary file is untouched. -/
def sampleFailedState : ProcState :=
  { file := sampleDoc, mtime := 3, temp := none,
    cache := ⟨some sampleSavedDoc, some 3, some 5⟩ }

/-- Witness for C4: a concrete create whose temp-file write fails leaves
the primary untouched, no temp file, and a structured failure. -/
theorem atomic_create_write_witness :
    sampleFailedState.temp = none ∧
    sampleFailedState.file = samplePreState.file ∧
    sampleFailedState.mtime = samplePreState.mtime ∧
    (SaveResult.fail "File system error"
      "Unable to save diary entry due to storage issues" : SaveResult) =
      SaveResult.fail "File system error"
        "Unable to save diary entry due to storage issues" :=
  atomic_create_write.2.1 samplePreState sampleUpdatedSd "id2" 5
    (encodeDate 2026 10 12) 9 WriteOutcome.failTempWrite sampleFailedState
    (SaveResult.fail "File system error"
      "Unable to save diary entry due to storage issues")
    sampleSavedDoc "id2" (by decide) (by decide) (by decide)

/-! ## C2 — cache state after successful writes

`invalidate_diary_cache` is called on the create path (app.py:424) but
neither `update_diary_entry` nor `delete_diary_entry` calls it; the claim
that every successful write invalidates the cache is therefore false.
What does hold: update and delete mutate the loaded — hence cached —
document object in place before persisting it, so after they return the
cache holds the post-mutation document and every subsequent
`load_diary_entries`, whether it hits the cache or reads the file,
returns the post-mutation document. -/

/-- Counterexample to C2 as stated: a successful update returns with the
diary cache still populated — `invalidate_diary_cache` (which would leave
all three cache fields `None`) was never run. -/
theorem update_leaves_cache_populated :
    (update_fs samplePreState "e1" sampleUpdateData 5 (encodeDate 2026 10 12) 9).2 =
      UpdResult.ok sampleUpdatedEntry ∧
    (update_fs samplePreState "e1" sampleUpdateData 5 (encodeDate 2026 10 12) 9).1.cache ≠
      invalidated_cache := by decide

theorem cache_data_eq_file_load {st : ProcState} (h : st.cache.data = some st.file)
    (now' : Nat) : (load_diary_entries st now').1 = st.file := by
  unfold load_diary_entries
  rw [h]
  rcases st.cache.cache_time with _ | t <;> simp only
  split <;> rfl

/-- C2 (amended): after a successful create, the cache is invalidated
before the result is returned; after a successful update or delete the
cache is *not* invalidated, but it holds exactly the persisted
post-mutation document (the route mutated the cached object in place), so
a subsequent read in the same process — cache hit or not — returns the
post-mutation document, never the pre-mutation one. -/
theorem cache_state_after_successful_writes :
    (∀ (st : ProcState) (ed : SanitizedData) (entry_id : String)
       (now today newMtime : Nat) (w : WriteOutcome) (st' : ProcState) (i : String),
       save_fs st ed entry_id now today newMtime w = (st', SaveResult.ok i) →
       st'.cache = invalidated_cache) ∧
    (∀ (st : ProcState) (entry_id : String) (data : RequestData)
       (now today newMtime : Nat) (st' : ProcState) (e' : DiaryEntry),
       update_fs st entry_id data now today newMtime = (st', UpdResult.ok e') →
       st'.cache.data = some st'.file ∧
       ∀ now', (load_diary_entries st' now').1 = st'.file) ∧
    (∀ (st : ProcState) (entry_id : String) (now newMtime : Nat)
       (st' : ProcState) (e : DiaryEntry),
       delete_fs st entry_id now newMtime = (st', some e) →
       st'.cache.data = some st'.file ∧
       ∀ now', (load_diary_entries st' now').1 = st'.file) := by
  refine ⟨?_, ?_, ?_⟩
  · intro st ed entry_id now today newMtime w st' i h
    unfold save_fs at h
    rcases hld : load_diary_entries st now with ⟨doc, st1⟩
    rw [hld] at h
    dsimp only at h
    rcases hs : save_diary_entry doc ed entry_id now today with ⟨doc2, r2⟩
    rw [hs] at h
    cases r2 with
    | fail e m => obtain ⟨-, hr⟩ := Prod.mk.injEq _ _ _ _ ▸ h; exact absurd hr.symm (by simp)
    | ok j =>
      cases w with
      | failTempWrite =>
        obtain ⟨-, hr⟩ := Prod.mk.injEq _ _ _ _ ▸ h; exact absurd hr.symm (by simp)
      | failReplace =>
        obtain ⟨-, hr⟩ := Prod.mk.injEq _ _ _ _ ▸ h; exact absurd hr.symm (by simp)
      | ok =>
        obtain ⟨h1, -⟩ := Prod.mk.injEq _ _ _ _ ▸ h
        rw [← h1]
  · intro st entry_id data now today newMtime st' e' h
    unfold update_fs at h
    rcases hld : load_diary_entries st now with ⟨doc, st1⟩
    rw [hld] at h
    dsimp only at h
    rcases hu : update_diary_entry doc entry_id data now today with ⟨doc2, r2⟩
    rw [hu] at h
    cases r2 with
    | notFound => obtain ⟨-, hr⟩ := Prod.mk.injEq _ _ _ _ ▸ h; exact absurd hr.symm (by simp)
    | badRequest m =>
      obtain ⟨-, hr⟩ := Prod.mk.injEq _ _ _ _ ▸ h; exact absurd hr.symm (by simp)
    | ok e2 =>
      obtain ⟨h1, -⟩ := Prod.mk.injEq _ _ _ _ ▸ h
      have hcd : st'.cache.data = some st'.file := by rw [← h1]
      exact ⟨hcd, fun now' => cache_data_eq_file_load hcd now'⟩
  · intro st entry_id now newMtime st' e h
    unfold delete_fs at h
    rcases hld : load_diary_entries st now with ⟨doc, st1⟩
    rw [hld] at h
    dsimp only at h
    rcases hdel : delete_diary_entry doc entry_id now with ⟨doc2, r2⟩
    rw [hdel] at h
    cases r2 with
    | none => obtain ⟨-, hr⟩ := Prod.mk.injEq _ _ _ _ ▸ h; exact absurd hr.symm (by simp)
    | some e2 =>
      obtain ⟨h1, -⟩ := Prod.mk.injEq _ _ _ _ ▸ h
      have hcd : st'.cache.data = some st'.file := by rw [← h1]
      exact ⟨hcd, fun now' => cache_data_eq_file_load hcd now'⟩

/-- The state after the sample update: the new document persisted and
cached, mtime from the rewrite, cache metadata untouched. -/
def sampleUpdatedState : ProcState :=
  { file := sampleUpdatedDoc, mtime := 9, temp := none,
    cache := ⟨some sampleUpdatedDoc, some 3, some 5⟩ }

/-- The state after the sample create with a successful write. -/
def sampleCreatedState : ProcState :=
  { file := sampleSavedDoc, mtime := 9, temp := none, cache := invalidated_cache }

/-- Witness for C2 (amended) at concrete states: the successful create
leaves the cache invalidated; the successful update leaves the cache
holding the persisted document, and a later read returns it. -/
theorem cache_state_after_successful_writes_witness :
    sampleCreatedState.cache = invalidated_cache ∧
    sampleUpdatedState.cache.data = some sampleUpdatedState.file ∧
    (load_diary_entries sampleUpdatedState 40).1 = sampleUpdatedState.file :=
  ⟨cache_state_after_successful_writes.1 samplePreState sampleUpdatedSd "id2" 5
      (encodeDate 2026 10 12) 9 WriteOutcome.ok sampleCreatedState "id2" (by decide),
   (cache_state_after_successful_writes.2.1 samplePreState "e1" sampleUpdateData 5
      (encodeDate 2026 10 12) 9 sampleUpdatedState sampleUpdatedEntry (by decide)).1,
   (cache_state_after_successful_writes.2.1 samplePreState "e1" sampleUpdateData 5
      (encodeDate 2026 10 12) 9 sampleUpdatedState sampleUpdatedEntry (by decide)).2 40⟩

/-! ## C6 — pagination parameter handling -/

theorem parse_page_args_bounds (p q : Arg) :
    1 ≤ (parse_page_args p q).2 ∧ (parse_page_args p q).2 ≤ 100 ∧
    1 ≤ (parse_page_args p q).1 := by
  unfold parse_page_args
  rcases p with _ | _ | pn <;> rcases q with _ | _ | qn <;>
    refine ⟨?_, ?_, ?_⟩ <;> simp only <;> omega

/-- C6: the effective page size is always in `[1,100]` and the page number
is always ≥ 1 (1-based); with no pagination arguments the defaults are
page 1, page size 10; a parseable legacy `limit`/`offset` pair is
translated to `per_page = clamp(limit)` and
`page = max(1, offset // per_page + 1)`; and a page number beyond
`total_pages` is rejected exactly when at least one entry matched the
filters — never when the filtered result is empty. -/
theorem pagination_parameter_handling :
    (∀ p q l o : Arg,
       1 ≤ (parse_pagination p q l o).2 ∧ (parse_pagination p q l o).2 ≤ 100 ∧
       1 ≤ (parse_pagination p q l o).1) ∧
    (parse_pagination Arg.absent Arg.absent Arg.absent Arg.absent = (1, 10)) ∧
    (∀ (p q : Arg) (l o : Int),
       parse_pagination p q (Arg.num l) (Arg.num o) =
         (max 1 (Int.fdiv o (min 100 (max 1 l)) + 1), min 100 (max 1 l))) ∧
    (∀ page N P : Nat, 0 < N →
       (page_out_of_range page N P = true ↔ total_pages N P < page)) ∧
    (∀ page P : Nat, page_out_of_range page 0 P = false) := by
  refine ⟨?_, rfl, fun p q l o => rfl, ?_, ?_⟩
  · intro p q l o
    have hpq := parse_page_args_bounds p q
    unfold parse_pagination
    rcases l with _ | _ | ln
    · exact hpq
    · exact hpq
    · rcases o with _ | _ | ofs <;> refine ⟨?_, ?_, ?_⟩ <;> simp only <;> omega
  · intro page N P hN
    simp [page_out_of_range, hN, Nat.lt_iff_add_one_le]
  · intro page P
    simp [page_out_of_range]

/-- Witness for C6's error-condition conjunct at a concrete non-empty
store. -/
theorem pagination_parameter_handling_witness :
    (page_out_of_range 3 5 10 = true ↔ total_pages 5 10 < 3) ∧
    page_out_of_range 3 0 10 = false :=
  ⟨pagination_parameter_handling.2.2.2.1 3 5 10 (by decide),
   pagination_parameter_handling.2.2.2.2 3 10⟩

/-! ## C7 — pages partition the filtered list -/

theorem flatMap_range_take_drop {α : Type} (P k : Nat) (l : List α) :
    (List.range k).flatMap (fun i => (l.drop (i * P)).take P) = l.take (k * P) := by
  induction k with
  | zero => simp
  | succ k ih =>
    rw [List.range_succ, List.flatMap_append, ih, Nat.succ_mul, List.take_add]
    simp

theorem length_le_total_pages_mul (N P : Nat) (hP : 1 ≤ P) :
    N ≤ total_pages N P * P := by
  unfold total_pages
  split
  · rename_i hN
    have hP' : 0 < P := hP
    have heq : (N + P - 1) / P = (N - 1) / P + 1 := by
      have h2 : N + P - 1 = (N - 1) + P := by omega
      rw [h2, Nat.add_div_right _ hP']
    rw [heq, Nat.add_mul, one_mul, Nat.mul_comm]
    have h1 := Nat.div_add_mod (N - 1) P
    have h3 := Nat.mod_lt (N - 1) hP'
    omega
  · rename_i hN
    omega

/-- C7: for any filtered entry list and any page size `P ≥ 1` (the
effective size is always in `[1,100]` by C6), the page slices
`paginated_entries` for pages `1..total_pages` concatenate back to
exactly the filtered list; hence the `returned_entries` counts over all
pages sum to the total, and — when the filtered list has no duplicate
records — the pages are pairwise disjoint, so no entry appears on two
pages. -/
theorem pagination_partition (l : List DiaryEntry) (P : Nat) (hP : 1 ≤ P) :
    ((List.range (total_pages l.length P)).flatMap
        (fun i => paginated_entries l (i + 1) P) = l) ∧
    (((List.range (total_pages l.length P)).map
        (fun i => (paginated_entries l (i + 1) P).length)).sum = l.length) ∧
    (l.Nodup →
      (List.range (total_pages l.length P)).Pairwise
        (fun i j => (paginated_entries l (i + 1) P).Disjoint
          (paginated_entries l (j + 1) P))) := by
  have hfun : (fun i => paginated_entries l (i + 1) P) =
      (fun i => (l.drop (i * P)).take P) := by
    funext i
    simp [paginated_entries]
  have h1 : (List.range (total_pages l.length P)).flatMap
      (fun i => paginated_entries l (i + 1) P) = l := by
    rw [hfun, flatMap_range_take_drop]
    exact List.take_of_length_le (length_le_total_pages_mul l.length P hP)
  refine ⟨h1, ?_, ?_⟩
  · have h2 := List.length_flatMap (List.range (total_pages l.length P))
      (fun i => paginated_entries l (i + 1) P)
    rw [h1] at h2
    exact h2.symm
  · intro hnd
    have hnodup : ((List.range (total_pages l.length P)).flatMap
        (fun i => paginated_entries l (i + 1) P)).Nodup := by
      rw [h1]; exact hnd
    exact (List.nodup_flatMap.mp hnodup).2

def sampleEntry2 : DiaryEntry := { sampleEntry with id := "e2" }

def sampleEntry3 : DiaryEntry := { sampleEntry with id := "e3" }

def sampleEntries : List DiaryEntry := [sampleEntry, sampleEntry2, sampleEntry3]

/-- Witness for C7: three entries at page size 2 (two pages). -/
theorem pagination_partition_witness :
    ((List.range (total_pages sampleEntries.length 2)).flatMap
        (fun i => paginated_entries sampleEntries (i + 1) 2) = sampleEntries) ∧
    (((List.range (total_pages sampleEntries.length 2)).map
        (fun i => (paginated_entries sampleEntries (i + 1) 2).length)).sum =
      sampleEntries.length) ∧
    ((List.range (total_pages sampleEntries.length 2)).Pairwise
        (fun i j => (paginated_entries sampleEntries (i + 1) 2).Disjoint
          (paginated_entries sampleEntries (j + 1) 2))) :=
  ⟨(pagination_partition sampleEntries 2 (by decide)).1,
   (pagination_partition sampleEntries 2 (by decide)).2.1,
   (pagination_partition sampleEntries 2 (by decide)).2.2 (by decide)⟩

/-! ## C9 — backup retention keeps the ten newest timestamped backups -/

/-- C9: after `create_timestamped_backup` runs (new backup created, then
`cleanup_old_backups`), at most 10 timestamped backups remain —
exactly `min 10 (n+1)` of the `n+1` present before cleanup — every
remaining file is one of those, and when all mtimes are distinct every
deleted backup is strictly older than every retained one, i.e. the
retained set is exactly the 10 most recently modified. -/
theorem backup_retention (existing : List (String × Nat)) (nb : String × Nat) :
    (create_timestamped_backup existing nb).length =
      min 10 (existing.length + 1) ∧
    (∀ x ∈ create_timestamped_backup existing nb, x ∈ existing ++ [nb]) ∧
    ((existing ++ [nb]).Pairwise (fun a b => a.2 ≠ b.2) →
      ∀ kept ∈ create_timestamped_backup existing nb,
        ∀ x ∈ existing ++ [nb], x ∉ create_timestamped_backup existing nb →
          x.2 < kept.2) := by
  unfold create_timestamped_backup cleanup_old_backups
  have hperm : List.Perm (List.insertionSort newestFirst (existing ++ [nb]))
      (existing ++ [nb]) :=
    List.perm_insertionSort newestFirst (existing ++ [nb])
  refine ⟨?_, ?_, ?_⟩
  · rw [List.length_take, hperm.length_eq]
    simp
  · intro x hx
    exact hperm.subset (List.take_subset _ _ hx)
  · intro hdist kept hkept x hxl hxnot
    have hsort : List.Sorted newestFirst
        (List.insertionSort newestFirst (existing ++ [nb])) :=
      List.sorted_insertionSort newestFirst (existing ++ [nb])
    have hx_sorted : x ∈ List.insertionSort newestFirst (existing ++ [nb]) :=
      hperm.mem_iff.mpr hxl
    rw [← List.take_append_drop 10
      (List.insertionSort newestFirst (existing ++ [nb]))] at hx_sorted
    have hx_drop : x ∈ (List.insertionSort newestFirst (existing ++ [nb])).drop 10 := by
      rcases List.mem_append.mp hx_sorted with h | h
      · exact absurd h hxnot
      · exact h
    have hdist' : (List.insertionSort newestFirst (existing ++ [nb])).Pairwise
        (fun a b => a.2 ≠ b.2) :=
      (hperm.pairwise_iff (fun h h2 => h h2.symm)).mpr hdist
    have hs2 := hsort
    rw [← List.take_append_drop 10
      (List.insertionSort newestFirst (existing ++ [nb]))] at hs2 hdist'
    have hle := (List.pairwise_append.mp hs2).2.2 kept hkept x hx_drop
    have hne := (List.pairwise_append.mp hdist').2.2 kept hkept x hx_drop
    have hle' : x.2 ≤ kept.2 := hle
    omega

/-- Fifteen timestamped backups with mtimes 1..14 on disk plus the
fifteenth being created. -/
def fifteenBackups : List (String × Nat) :=
  [("b1", 1), ("b2", 2), ("b3", 3), ("b4", 4), ("b5", 5), ("b6", 6), ("b7", 7),
   ("b8", 8), ("b9", 9), ("b10", 10), ("b11", 11), ("b12", 12), ("b13", 13),
   ("b14", 14)]

/-- Witness for C9, matching the spec's scenario: after the fifteenth
timestamped backup is created, exactly the 10 most recently modified
remain — and the sample deleted file `("b5", 5)` is older than the sample
survivor `("b15", 15)`. -/
theorem backup_retention_witness :
    (create_timestamped_backup fifteenBackups ("b15", 15)).length =
      min 10 (fifteenBackups.length + 1) ∧
    create_timestamped_backup fifteenBackups ("b15", 15) =
      [("b15", 15), ("b14", 14), ("b13", 13), ("b12", 12), ("b11", 11),
       ("b10", 10), ("b9", 9), ("b8", 8), ("b7", 7), ("b6", 6)] ∧
    (5 : Nat) < 15 :=
  ⟨(backup_retention fifteenBackups ("b15", 15)).1,
   by decide,
   (backup_retention fifteenBackups ("b15", 15)).2.2 (by decide)
     ("b15", 15) (by decide) ("b5", 5) (by decide) (by decide)⟩

/-! ## C5 — recovery validates the backup before restoring -/

/-- C5: both recovery paths validate the chosen backup *before* touching
anything.  If the backup fails validation (or none can be selected), the
operation returns a failure and the whole state — in particular the
corrupt primary file — is exactly as before; if validation succeeds, the
corrupt primary is first copied to the corruption-timestamped archive
slot, then overwritten with the backup's content, and the diary cache is
invalidated. -/
theorem recovery_validates_before_restoring :
    (∀ (validate : String → Bool) (st : RecoveryState),
       st.fixed_backup = none →
       recover_from_backup validate st = (st, RecResult.fail "No backup file found")) ∧
    (∀ (validate : String → Bool) (st : RecoveryState) (b : String),
       st.fixed_backup = some b → validate b = false →
       recover_from_backup validate st =
         (st, RecResult.fail "Backup file is also corrupted")) ∧
    (∀ (validate : String → Bool) (st : RecoveryState) (b p : String),
       st.fixed_backup = some b → validate b = true → st.primary = some p →
       (recover_from_backup validate st).1.corrupted_archive = some p ∧
       (recover_from_backup validate st).1.primary = some b ∧
       (recover_from_backup validate st).1.cache = invalidated_cache ∧
       (recover_from_backup validate st).2 = RecResult.ok) ∧
    (∀ (validate : String → Bool) (st : RecoveryState) (ts? : Option String)
       (e : String),
       select_timestamped_backup st ts? = Except.error e →
       recover_from_timestamped_backup validate st ts? = (st, RecResult.fail e)) ∧
    (∀ (validate : String → Bool) (st : RecoveryState) (ts? : Option String)
       (f : TBackup),
       select_timestamped_backup st ts? = Except.ok f →
       validate f.content = false →
       recover_from_timestamped_backup validate st ts? =
         (st, RecResult.fail "Selected backup file is corrupted")) ∧
    (∀ (validate : String → Bool) (st : RecoveryState) (ts? : Option String)
       (f : TBackup) (p : String),
       select_timestamped_backup st ts? = Except.ok f →
       validate f.content = true → st.primary = some p →
       (recover_from_timestamped_backup validate st ts?).1.corrupted_archive = some p ∧
       (recover_from_timestamped_backup validate st ts?).1.primary = some f.content ∧
       (recover_from_timestamped_backup validate st ts?).1.cache = invalidated_cache ∧
       (recover_from_timestamped_backup validate st ts?).2 = RecResult.ok) := by
  refine ⟨?_, ?_, ?_, ?_, ?_, ?_⟩
  · intro validate st h
    unfold recover_from_backup
    rw [h]
  · intro validate st b hb hv
    unfold recover_from_backup
    rw [hb]
    dsimp only
    rw [hv]
    simp
  · intro validate st b p hb hv hp
    unfold recover_from_backup
    rw [hb]
    dsimp only
    rw [hv, hp]
    exact ⟨rfl, rfl, rfl, rfl⟩
  · intro validate st ts? e hsel
    unfold recover_from_timestamped_backup
    rw [hsel]
  · intro validate st ts? f hsel hv
    unfold recover_from_timestamped_backup
    rw [hsel]
    dsimp only
    rw [hv]
    simp
  · intro validate st ts? f p hsel hv hp
    unfold recover_from_timestamped_backup
    rw [hsel]
    dsimp only
    rw [hv, hp]
    exact ⟨rfl, rfl, rfl, rfl⟩

def corruptRecoveryState : RecoveryState :=
  { primary := some "corrupt-bytes", fixed_backup := some "bad-backup",
    timestamped := [⟨"diary_data.json.backup_20260101_000000", 5, "good-doc"⟩],
    corrupted_archive := none, cache := ⟨none, some 1, some 2⟩ }

def goodRecoveryState : RecoveryState :=
  { corruptRecoveryState with fixed_backup := some "good-doc" }

/-- Witness for C5: a validator accepting only `"good-doc"`, one state
whose fixed backup is corrupt (recovery fails, state untouched), one whose
backup is valid (primary archived then overwritten, cache invalidated),
and a timestamped recovery by explicit timestamp. -/
theorem recovery_validates_before_restoring_witness :
    recover_from_backup (fun s => s == "good-doc") corruptRecoveryState =
      (corruptRecoveryState, RecResult.fail "Backup file is also corrupted") ∧
    ((recover_from_backup (fun s => s == "good-doc") goodRecoveryState).1.corrupted_archive =
        some "corrupt-bytes" ∧
      (recover_from_backup (fun s => s == "good-doc") goodRecoveryState).1.primary =
        some "good-doc" ∧
      (recover_from_backup (fun s => s == "good-doc") goodRecoveryState).1.cache =
        invalidated_cache ∧
      (recover_from_backup (fun s => s == "good-doc") goodRecoveryState).2 =
        RecResult.ok) ∧
    ((recover_from_timestamped_backup (fun s => s == "good-doc") corruptRecoveryState
          (some "20260101_000000")).1.primary = some "good-doc" ∧
      (recover_from_timestamped_backup (fun s => s == "good-doc") corruptRecoveryState
          (some "20260101_000000")).1.corrupted_archive = some "corrupt-bytes" ∧
      (recover_from_timestamped_backup (fun s => s == "good-doc") corruptRecoveryState
          (some "20260101_000000")).1.cache = invalidated_cache) :=
  ⟨recovery_validates_before_restoring.2.1 (fun s => s == "good-doc")
      corruptRecoveryState "bad-backup" (by decide) (by decide),
   recovery_validates_before_restoring.2.2.1 (fun s => s == "good-doc")
      goodRecoveryState "good-doc" "corrupt-bytes" (by decide) (by decide) (by decide),
   (by
     have h := recovery_validates_before_restoring.2.2.2.2.2 (fun s => s == "good-doc")
       corruptRecoveryState (some "20260101_000000")
       ⟨"diary_data.json.backup_20260101_000000", 5, "good-doc"⟩ "corrupt-bytes"
       (by decide) (by decide) (by decide)
     exact ⟨h.2.1, h.1, h.2.2.1⟩)⟩

example : validate_entry_data { crop_type := "tomato", observations := "fine", date := "2026-10-11" } (encodeDate 2026 10 12) = [] := by decide

example : validate_entry_data { crop_type := " ", observations := "" } 0 = ["Crop type is required", "Observations are required"] := by decide

example : validate_entry_data { crop_type := "tomato", observations := "ok", date := "2026-13-01" } (encodeDate 2026 10 12) = ["Invalid date format"] := by decide

example : validate_entry_data { crop_type := "tomato", observations := "ok", date := "2027-01-01" } (encodeDate 2026 10 12) = ["Entry date cannot be in the future"] := by decide

end FarmDiary
